import Mathlib

/-!
# Button: an object wrapper around the `iot_button` driver

Shallow embedding of `button/button.cpp` and `button/include/button.h`.

The class `Button` owns one driver handle (`m_btn_handle`) and forwards five
registration requests to the C driver declared in `iot_button.h`.  The driver
is an external collaborator: it is a parameter of every definition below
(`Driver σ`, an arbitrary transition system over an arbitrary driver state
`σ`).  Every call that the wrapper makes to the driver is appended to a call
log together with what the driver answered, so that "which driver call was
made, with which arguments, in which order" is a statement about the log.
-/

/-! ## Types declared by the driver's header -/

/-- GPIO index of a pin (`gpio_num_t`, a C enum): its integer value. -/
abbrev gpio_num_t := Int

/-- Modelled from the spec: `button_active_t` is declared in `iot_button.h`,
which is absent; a two-valued enumeration, active-high or active-low (both
enumerators are named in `button.h`). -/
inductive button_active_t where
  | BUTTON_ACTIVE_HIGH
  | BUTTON_ACTIVE_LOW
  deriving DecidableEq, Repr

/-- Modelled from the spec: `button_cb_type_t` is declared in `iot_button.h`,
which is absent; a C enum of discrete event types, kept as its integer
value. -/
abbrev button_cb_type_t := Int

/-- The opaque driver handle (`button_handle_t`, a `void*`): its address. -/
abbrev button_handle_t := Nat

/-- The null pointer. -/
def NULL : button_handle_t := 0

/-- A callback (`button_cb`, a function pointer): its address. -/
abbrev button_cb := Nat

/-- The callback's context pointer (`void* arg`): its address. -/
abbrev ctx_ptr := Nat

/-- FreeRTOS tick count (`TickType_t`). -/
abbrev TickType_t := Nat

/-- The C type `uint32_t`. -/
abbrev uint32_t := Nat

/-- Status code of the driver (`esp_err_t`). -/
abbrev esp_err_t := Int

/-- Success status, named in `button.h`. -/
def ESP_OK : esp_err_t := 0

/-- Failure status ("parameter error"), named in `button.h`. -/
def ESP_FAIL : esp_err_t := -1

/-! ## The driver as a collaborator -/

/-- Modelled from the spec: the handle-based driver interface of
`iot_button.h`, which is absent.  One field per driver operation, with the
argument order that the interface declares; `σ` is the driver's own state. -/
structure Driver (σ : Type) where
  /-- The operation `create(pin, activeLevel) -> handle`. -/
  create : gpio_num_t → button_active_t → σ → button_handle_t × σ
  /-- The operation `delete(handle) -> void`. -/
  delete : button_handle_t → σ → σ
  /-- The operation `setEventCallback(handle, eventType, callback, context)`. -/
  setEventCallback :
    button_handle_t → button_cb_type_t → button_cb → ctx_ptr → σ → esp_err_t × σ
  /-- The operation
  `setSerialCallback(handle, startAfterSeconds, intervalTicks, callback, context)`. -/
  setSerialCallback :
    button_handle_t → uint32_t → TickType_t → button_cb → ctx_ptr → σ → esp_err_t × σ
  /-- The operation `addOnPressCallback(handle, pressSeconds, callback, context)`. -/
  addOnPressCallback :
    button_handle_t → uint32_t → button_cb → ctx_ptr → σ → esp_err_t × σ
  /-- The operation `addOnReleaseCallback(handle, pressSeconds, callback, context)`. -/
  addOnReleaseCallback :
    button_handle_t → uint32_t → button_cb → ctx_ptr → σ → esp_err_t × σ
  /-- The operation `removeCallback(handle, eventType)`. -/
  removeCallback : button_handle_t → button_cb_type_t → σ → esp_err_t × σ

/-- A call received by the driver, with its arguments in the driver's declared
order. -/
inductive Call where
  | create (pin : gpio_num_t) (activeLevel : button_active_t)
  | delete (handle : button_handle_t)
  | setEventCallback (handle : button_handle_t) (eventType : button_cb_type_t)
      (callback : button_cb) (context : ctx_ptr)
  | setSerialCallback (handle : button_handle_t) (startAfterSeconds : uint32_t)
      (intervalTicks : TickType_t) (callback : button_cb) (context : ctx_ptr)
  | addOnPressCallback (handle : button_handle_t) (pressSeconds : uint32_t)
      (callback : button_cb) (context : ctx_ptr)
  | addOnReleaseCallback (handle : button_handle_t) (pressSeconds : uint32_t)
      (callback : button_cb) (context : ctx_ptr)
  | removeCallback (handle : button_handle_t) (eventType : button_cb_type_t)
  deriving DecidableEq, Repr

/-- What the driver answered to a call. -/
inductive Ret where
  | handle (h : button_handle_t)
  | void
  | status (e : esp_err_t)
  deriving DecidableEq, Repr

/-- The driver's state together with the log of the calls made to it. -/
structure World (σ : Type) where
  drv : σ
  log : List (Call × Ret)

/-- The calls made to the driver between world `w` and a later world `w1`. -/
def newCalls {σ : Type} (w w1 : World σ) : List (Call × Ret) :=
  w1.log.drop w.log.length

/-- Driver call `iot_button_create`, logged. -/
def iot_button_create {σ : Type} (d : Driver σ) (gpio_num : gpio_num_t)
    (active_level : button_active_t) (w : World σ) : button_handle_t × World σ :=
  let r := d.create gpio_num active_level w.drv
  (r.1, ⟨r.2, w.log ++ [(Call.create gpio_num active_level, Ret.handle r.1)]⟩)

/-- Driver call `iot_button_delete`, logged. -/
def iot_button_delete {σ : Type} (d : Driver σ) (btn_handle : button_handle_t)
    (w : World σ) : World σ :=
  ⟨d.delete btn_handle w.drv, w.log ++ [(Call.delete btn_handle, Ret.void)]⟩

/-- Driver call `iot_button_set_evt_cb`, logged. -/
def iot_button_set_evt_cb {σ : Type} (d : Driver σ) (btn_handle : button_handle_t)
    (type : button_cb_type_t) (cb : button_cb) (arg : ctx_ptr) (w : World σ) :
    esp_err_t × World σ :=
  let r := d.setEventCallback btn_handle type cb arg w.drv
  (r.1, ⟨r.2, w.log ++ [(Call.setEventCallback btn_handle type cb arg, Ret.status r.1)]⟩)

/-- Driver call `iot_button_set_serial_cb`, logged. -/
def iot_button_set_serial_cb {σ : Type} (d : Driver σ) (btn_handle : button_handle_t)
    (start_after_sec : uint32_t) (interval_tick : TickType_t) (cb : button_cb)
    (arg : ctx_ptr) (w : World σ) : esp_err_t × World σ :=
  let r := d.setSerialCallback btn_handle start_after_sec interval_tick cb arg w.drv
  (r.1, ⟨r.2, w.log ++
    [(Call.setSerialCallback btn_handle start_after_sec interval_tick cb arg,
      Ret.status r.1)]⟩)

/-- Driver call `iot_button_add_on_press_cb`, logged. -/
def iot_button_add_on_press_cb {σ : Type} (d : Driver σ) (btn_handle : button_handle_t)
    (press_sec : uint32_t) (cb : button_cb) (arg : ctx_ptr) (w : World σ) :
    esp_err_t × World σ :=
  let r := d.addOnPressCallback btn_handle press_sec cb arg w.drv
  (r.1, ⟨r.2, w.log ++
    [(Call.addOnPressCallback btn_handle press_sec cb arg, Ret.status r.1)]⟩)

/-- Driver call `iot_button_add_on_release_cb`, logged. -/
def iot_button_add_on_release_cb {σ : Type} (d : Driver σ) (btn_handle : button_handle_t)
    (press_sec : uint32_t) (cb : button_cb) (arg : ctx_ptr) (w : World σ) :
    esp_err_t × World σ :=
  let r := d.addOnReleaseCallback btn_handle press_sec cb arg w.drv
  (r.1, ⟨r.2, w.log ++
    [(Call.addOnReleaseCallback btn_handle press_sec cb arg, Ret.status r.1)]⟩)

/-- Driver call `iot_button_rm_cb`, logged. -/
def iot_button_rm_cb {σ : Type} (d : Driver σ) (btn_handle : button_handle_t)
    (type : button_cb_type_t) (w : World σ) : esp_err_t × World σ :=
  let r := d.removeCallback btn_handle type w.drv
  (r.1, ⟨r.2, w.log ++ [(Call.removeCallback btn_handle type, Ret.status r.1)]⟩)

/-! ## The class `Button` -/

/-- The data members of `class Button`. -/
structure Button where
  m_btn_handle : button_handle_t
  deriving DecidableEq, Repr

/-- The constructor `Button::Button(gpio_num, active_level)`. -/
def Button.ctor {σ : Type} (d : Driver σ) (gpio_num : gpio_num_t)
    (active_level : button_active_t) (w : World σ) : Button × World σ :=
  let r := iot_button_create d gpio_num active_level w
  ({ m_btn_handle := r.1 }, r.2)

/-- The constructor with its default argument,
`active_level = BUTTON_ACTIVE_HIGH`. -/
def Button.ctorDefault {σ : Type} (d : Driver σ) (gpio_num : gpio_num_t) (w : World σ) :
    Button × World σ :=
  Button.ctor d gpio_num button_active_t.BUTTON_ACTIVE_HIGH w

/-- The destructor `Button::~Button()`; the `Button` returned is the object's
storage when the destructor's body has run. -/
def Button.dtor {σ : Type} (d : Driver σ) (self : Button) (w : World σ) :
    Button × World σ :=
  let w1 := iot_button_delete d self.m_btn_handle w
  ({ self with m_btn_handle := NULL }, w1)

/-- The method `Button::setEventCallback(type, cb, arg)`. -/
def Button.setEventCallback {σ : Type} (d : Driver σ) (self : Button)
    (type : button_cb_type_t) (cb : button_cb) (arg : ctx_ptr) (w : World σ) :
    esp_err_t × Button × World σ :=
  let r := iot_button_set_evt_cb d self.m_btn_handle type cb arg w
  (r.1, self, r.2)

/-- The method `Button::setSerialCallback(cb, arg, interval_tick, start_after_sec)`. -/
def Button.setSerialCallback {σ : Type} (d : Driver σ) (self : Button)
    (cb : button_cb) (arg : ctx_ptr) (interval_tick : TickType_t)
    (start_after_sec : uint32_t) (w : World σ) : esp_err_t × Button × World σ :=
  let r := iot_button_set_serial_cb d self.m_btn_handle start_after_sec interval_tick cb arg w
  (r.1, self, r.2)

/-- The method `Button::addOnPressCallback(press_sec, cb, arg)`. -/
def Button.addOnPressCallback {σ : Type} (d : Driver σ) (self : Button)
    (press_sec : uint32_t) (cb : button_cb) (arg : ctx_ptr) (w : World σ) :
    esp_err_t × Button × World σ :=
  let r := iot_button_add_on_press_cb d self.m_btn_handle press_sec cb arg w
  (r.1, self, r.2)

/-- The method `Button::addOnReleaseCallback(press_sec, cb, arg)`. -/
def Button.addOnReleaseCallback {σ : Type} (d : Driver σ) (self : Button)
    (press_sec : uint32_t) (cb : button_cb) (arg : ctx_ptr) (w : World σ) :
    esp_err_t × Button × World σ :=
  let r := iot_button_add_on_release_cb d self.m_btn_handle press_sec cb arg w
  (r.1, self, r.2)

/-- The method `Button::removeCallback(type)`. -/
def Button.removeCallback {σ : Type} (d : Driver σ) (self : Button)
    (type : button_cb_type_t) (w : World σ) : esp_err_t × Button × World σ :=
  let r := iot_button_rm_cb d self.m_btn_handle type w
  (r.1, self, r.2)

/-! ## Sequences of forwarding operations -/

/-- A request to one of the five forwarding methods, with the arguments in the
method's own order. -/
inductive Op where
  | setEventCallback (type : button_cb_type_t) (cb : button_cb) (arg : ctx_ptr)
  | setSerialCallback (cb : button_cb) (arg : ctx_ptr) (interval_tick : TickType_t)
      (start_after_sec : uint32_t)
  | addOnPressCallback (press_sec : uint32_t) (cb : button_cb) (arg : ctx_ptr)
  | addOnReleaseCallback (press_sec : uint32_t) (cb : button_cb) (arg : ctx_ptr)
  | removeCallback (type : button_cb_type_t)
  deriving DecidableEq, Repr

/-- Invoke the method that `op` names on the Button `self`. -/
def Button.apply {σ : Type} (d : Driver σ) (self : Button) (op : Op) (w : World σ) :
    esp_err_t × Button × World σ :=
  match op with
  | Op.setEventCallback type cb arg => Button.setEventCallback d self type cb arg w
  | Op.setSerialCallback cb arg interval_tick start_after_sec =>
      Button.setSerialCallback d self cb arg interval_tick start_after_sec w
  | Op.addOnPressCallback press_sec cb arg => Button.addOnPressCallback d self press_sec cb arg w
  | Op.addOnReleaseCallback press_sec cb arg =>
      Button.addOnReleaseCallback d self press_sec cb arg w
  | Op.removeCallback type => Button.removeCallback d self type w

/-- Invoke a finite sequence of forwarding methods on one Button, in order. -/
def Button.run {σ : Type} (d : Driver σ) : List Op → Button → World σ → Button × World σ
  | [], self, w => (self, w)
  | op :: ops, self, w =>
      Button.run d ops (Button.apply d self op w).2.1 (Button.apply d self op w).2.2

/-- The driver call that the interface of section 6 of the specification pairs
with a method call on a Button whose handle is `h`: the same-named driver
operation, handle first, arguments in the driver's declared order. -/
def Op.call (h : button_handle_t) : Op → Call
  | Op.setEventCallback type cb arg => Call.setEventCallback h type cb arg
  | Op.setSerialCallback cb arg interval_tick start_after_sec =>
      Call.setSerialCallback h start_after_sec interval_tick cb arg
  | Op.addOnPressCallback press_sec cb arg => Call.addOnPressCallback h press_sec cb arg
  | Op.addOnReleaseCallback press_sec cb arg => Call.addOnReleaseCallback h press_sec cb arg
  | Op.removeCallback type => Call.removeCallback h type

/-- What the driver itself does when it receives the call `Op.call h op` in
state `s`. -/
def Driver.exec {σ : Type} (d : Driver σ) (h : button_handle_t) (op : Op) (s : σ) :
    esp_err_t × σ :=
  match op with
  | Op.setEventCallback type cb arg => d.setEventCallback h type cb arg s
  | Op.setSerialCallback cb arg interval_tick start_after_sec =>
      d.setSerialCallback h start_after_sec interval_tick cb arg s
  | Op.addOnPressCallback press_sec cb arg => d.addOnPressCallback h press_sec cb arg s
  | Op.addOnReleaseCallback press_sec cb arg => d.addOnReleaseCallback h press_sec cb arg s
  | Op.removeCallback type => d.removeCallback h type s

/-- Which of two Button objects a method is invoked on. -/
inductive Who where
  | A
  | B
  deriving DecidableEq, Repr

/-- Invoke an interleaved sequence of forwarding methods on two Buttons. -/
def runTwo {σ : Type} (d : Driver σ) :
    List (Who × Op) → Button → Button → World σ → Button × Button × World σ
  | [], a, b, w => (a, b, w)
  | (Who.A, op) :: rest, a, b, w =>
      runTwo d rest (Button.apply d a op w).2.1 b (Button.apply d a op w).2.2
  | (Who.B, op) :: rest, a, b, w =>
      runTwo d rest a (Button.apply d b op w).2.1 (Button.apply d b op w).2.2

/-- The handle that the `who`-th of two Buttons owns. -/
def Who.pick (hA hB : button_handle_t) : Who → button_handle_t
  | Who.A => hA
  | Who.B => hB

/-! ## Reading the call log -/

/-- The handle argument of a driver call (`create` takes none). -/
def Call.handleOf : Call → Option button_handle_t
  | Call.create _ _ => none
  | Call.delete h => some h
  | Call.setEventCallback h _ _ _ => some h
  | Call.setSerialCallback h _ _ _ _ => some h
  | Call.addOnPressCallback h _ _ _ => some h
  | Call.addOnReleaseCallback h _ _ _ => some h
  | Call.removeCallback h _ => some h

/-- Lifetime calls: `create` and `delete`. -/
def Call.isLifetime : Call → Bool
  | Call.create _ _ => true
  | Call.delete _ => true
  | _ => false

/-- Whether the call is a `create`. -/
def Call.isCreate : Call → Bool
  | Call.create _ _ => true
  | _ => false

/-- Whether the call is a `delete`. -/
def Call.isDelete : Call → Bool
  | Call.delete _ => true
  | _ => false

/-- Whether the call is the driver's on-press registration. -/
def Call.isAddOnPress : Call → Bool
  | Call.addOnPressCallback _ _ _ _ => true
  | _ => false

/-- Whether the call is the driver's on-release registration. -/
def Call.isAddOnRelease : Call → Bool
  | Call.addOnReleaseCallback _ _ _ _ => true
  | _ => false

/-- The lifetime calls of a log, in order. -/
def lifetimeCalls (log : List (Call × Ret)) : List (Call × Ret) :=
  log.filter (fun c => c.1.isLifetime)

/-- Number of `create` calls in a log. -/
def createCount (log : List (Call × Ret)) : Nat :=
  log.countP (fun c => c.1.isCreate)

/-- Number of `delete` calls in a log. -/
def deleteCount (log : List (Call × Ret)) : Nat :=
  log.countP (fun c => c.1.isDelete)

/-- Effect of one logged call on the handles that are created and not yet
deleted. -/
def liveStep (live : List button_handle_t) : Call × Ret → List button_handle_t
  | (Call.create _ _, Ret.handle h) => h :: live
  | (Call.delete h, _) => live.erase h
  | _ => live

/-- The handles that a log leaves created and not deleted, starting from the
handles `live`. -/
def liveHandles (live : List button_handle_t) (log : List (Call × Ret)) :
    List button_handle_t :=
  log.foldl liveStep live

/-! ## Test doubles -/

/-- State of the test-double driver: how many handles it has issued, the
callback registered per (handle, event type), and the callbacks it has
invoked so far. -/
structure MockState where
  issued : Nat
  registry : List ((button_handle_t × button_cb_type_t) × (button_cb × ctx_ptr))
  invoked : List (button_cb × ctx_ptr)
  deriving DecidableEq, Repr

/-- Modelled from the spec: the test-double driver of section 8, which is not
part of the sources.  Its `create` returns a fresh, non-null handle on every
call; it records the callback registered per (handle, event type); a null
handle is a parameter error for the registering operations; `removeCallback`
reports success, the only status that `button.h` documents for it. -/
def mockDriver : Driver MockState where
  create := fun _ _ s => (s.issued + 1, { s with issued := s.issued + 1 })
  delete := fun h s => { s with registry := s.registry.filter (fun e => e.1.1 ≠ h) }
  setEventCallback := fun h type cb arg s =>
    if h = NULL then (ESP_FAIL, s)
    else (ESP_OK, { s with
      registry := ((h, type), (cb, arg)) :: s.registry.filter (fun e => e.1 ≠ (h, type)) })
  setSerialCallback := fun h _ _ _ _ s => (if h = NULL then ESP_FAIL else ESP_OK, s)
  addOnPressCallback := fun h _ _ _ s => (if h = NULL then ESP_FAIL else ESP_OK, s)
  addOnReleaseCallback := fun h _ _ _ s => (if h = NULL then ESP_FAIL else ESP_OK, s)
  removeCallback := fun h type s =>
    (ESP_OK, { s with registry := s.registry.filter (fun e => e.1 ≠ (h, type)) })

/-- Modelled from the spec: the test double simulating that event `type` fires
on handle `h`; the callback registered for (`h`, `type`), if any, is invoked,
which the double records in `invoked`. -/
def MockState.simulateEvent (h : button_handle_t) (type : button_cb_type_t)
    (s : MockState) : MockState :=
  match s.registry.lookup (h, type) with
  | some c => { s with invoked := s.invoked ++ [c] }
  | none => s

/-- The test double before any call. -/
def mockInit : World MockState :=
  { drv := { issued := 0, registry := [], invoked := [] }, log := [] }

/-- Modelled from the spec: what the absent driver answers on a null handle.
Sections 4.1 and 7 say that after a failed allocation the handle is null and
the operations on it fail, the failure being a driver status code: each of
the five registration operations, given the null handle, returns a status
other than `ESP_OK`, in every driver state. -/
def Driver.rejectsNull {σ : Type} (d : Driver σ) : Prop :=
  ∀ (op : Op) (s : σ), (d.exec NULL op s).1 ≠ ESP_OK

/-- Modelled from the spec: the absent driver with its allocation failing
(sections 4.1 and 7).  `create` returns the null handle, and each of the five
registration operations answers the null handle with the parameter failure
`ESP_FAIL`, leaving the state as it was; on any other handle they are those
of `mockDriver`. -/
def exhaustedDriver : Driver MockState where
  create := fun _ _ s => (NULL, s)
  delete := mockDriver.delete
  setEventCallback := fun h type cb arg s =>
    if h = NULL then (ESP_FAIL, s) else mockDriver.setEventCallback h type cb arg s
  setSerialCallback := fun h start_after_sec interval_tick cb arg s =>
    if h = NULL then (ESP_FAIL, s)
    else mockDriver.setSerialCallback h start_after_sec interval_tick cb arg s
  addOnPressCallback := fun h press_sec cb arg s =>
    if h = NULL then (ESP_FAIL, s) else mockDriver.addOnPressCallback h press_sec cb arg s
  addOnReleaseCallback := fun h press_sec cb arg s =>
    if h = NULL then (ESP_FAIL, s) else mockDriver.addOnReleaseCallback h press_sec cb arg s
  removeCallback := fun h type s =>
    if h = NULL then (ESP_FAIL, s) else mockDriver.removeCallback h type s

/-! ## Scenarios -/

/-- Two nested object lifetimes: construct A, use A, construct B, use A and B
in any interleaving, destruct B, use A, destruct A.  Returns the handle stored
in A after its construction, the handle stored in B after its construction,
and the final world. -/
def nestedLifetimes {σ : Type} (d : Driver σ) (pinA : gpio_num_t) (levelA : button_active_t)
    (pinB : gpio_num_t) (levelB : button_active_t) (opsA : List Op)
    (opsAB : List (Who × Op)) (opsA2 : List Op) (w : World σ) :
    button_handle_t × button_handle_t × World σ :=
  let cA := Button.ctor d pinA levelA w
  let rA := Button.run d opsA cA.1 cA.2
  let cB := Button.ctor d pinB levelB rA.2
  let rAB := runTwo d opsAB rA.1 cB.1 cB.2
  let dB := Button.dtor d rAB.2.1 rAB.2.2
  let rA2 := Button.run d opsA2 rAB.1 dB.2
  let dA := Button.dtor d rA2.1 rA2.2
  (cA.1.m_btn_handle, cB.1.m_btn_handle, dA.2)

/-- Construct a Button A on `pinA`, then a Button B on `pinB`. -/
def constructTwo {σ : Type} (d : Driver σ) (pinA : gpio_num_t) (levelA : button_active_t)
    (pinB : gpio_num_t) (levelB : button_active_t) (w : World σ) :
    Button × Button × World σ :=
  let cA := Button.ctor d pinA levelA w
  let cB := Button.ctor d pinB levelB cA.2
  (cA.1, cB.1, cB.2)

/-! ## Theorems -/

/-! ### Auxiliary facts about single calls and sequences -/

/-- When the later log is `w.log ++ l`, the calls made in between are `l`. -/
theorem newCalls_append {σ : Type} (w w1 : World σ) (l : List (Call × Ret))
    (h : w1.log = w.log ++ l) : newCalls w w1 = l := by
  simp [newCalls, h]

/-- A method call is one driver call: it returns the driver's status, leaves
the Button as it was, and appends the paired driver call to the log. -/
theorem Button.apply_eq {σ : Type} (d : Driver σ) (self : Button) (op : Op) (w : World σ) :
    Button.apply d self op w
      = ((d.exec self.m_btn_handle op w.drv).1, self,
          { drv := (d.exec self.m_btn_handle op w.drv).2,
            log := w.log ++ [(Op.call self.m_btn_handle op,
              Ret.status (d.exec self.m_btn_handle op w.drv).1)] }) := by
  cases op <;> rfl

/-- A forwarding call is never a lifetime call. -/
theorem Op.call_isLifetime (h : button_handle_t) (op : Op) :
    (Op.call h op).isLifetime = false := by
  cases op <;> rfl

/-- A forwarding call carries the handle it was given. -/
theorem Op.call_handleOf (h : button_handle_t) (op : Op) :
    (Op.call h op).handleOf = some h := by
  cases op <;> rfl

/-- A sequence of methods leaves the Button as it was. -/
theorem Button.run_self {σ : Type} (d : Driver σ) (ops : List Op) (self : Button)
    (w : World σ) : (Button.run d ops self w).1 = self := by
  induction ops generalizing w with
  | nil => rfl
  | cons op ops ih =>
    simp only [Button.run, Button.apply_eq]
    exact ih _

/-- A sequence of methods extends the log by the paired driver calls, in order. -/
theorem Button.run_log {σ : Type} (d : Driver σ) (ops : List Op) (self : Button)
    (w : World σ) :
    ∃ l, (Button.run d ops self w).2.log = w.log ++ l
      ∧ l.map Prod.fst = ops.map (Op.call self.m_btn_handle) := by
  induction ops generalizing w with
  | nil => exact ⟨[], by simp [Button.run]⟩
  | cons op ops ih =>
    simp only [Button.run, Button.apply_eq]
    obtain ⟨l, hl, hm⟩ := ih
      { drv := (d.exec self.m_btn_handle op w.drv).2,
        log := w.log ++ [(Op.call self.m_btn_handle op,
          Ret.status (d.exec self.m_btn_handle op w.drv).1)] }
    refine ⟨(Op.call self.m_btn_handle op,
      Ret.status (d.exec self.m_btn_handle op w.drv).1) :: l, ?_, ?_⟩
    · rw [hl]; simp
    · simp [hm]

/-- An interleaved sequence of methods leaves both Buttons as they were. -/
theorem runTwo_self {σ : Type} (d : Driver σ) (ops : List (Who × Op)) (a b : Button)
    (w : World σ) : (runTwo d ops a b w).1 = a ∧ (runTwo d ops a b w).2.1 = b := by
  induction ops generalizing w with
  | nil => exact ⟨rfl, rfl⟩
  | cons p ops ih =>
    obtain ⟨who, op⟩ := p
    cases who <;> simp only [runTwo, Button.apply_eq] <;> exact ih _

/-- An interleaved sequence of methods extends the log by the paired driver
calls, each with the handle of the Button it was invoked on. -/
theorem runTwo_log {σ : Type} (d : Driver σ) (ops : List (Who × Op)) (a b : Button)
    (w : World σ) :
    ∃ l, (runTwo d ops a b w).2.2.log = w.log ++ l
      ∧ l.map Prod.fst
          = ops.map (fun p => Op.call (p.1.pick a.m_btn_handle b.m_btn_handle) p.2) := by
  induction ops generalizing w with
  | nil => exact ⟨[], by simp [runTwo]⟩
  | cons p ops ih =>
    obtain ⟨who, op⟩ := p
    cases who
    · simp only [runTwo, Button.apply_eq]
      obtain ⟨l, hl, hm⟩ := ih
        { drv := (d.exec a.m_btn_handle op w.drv).2,
          log := w.log ++ [(Op.call a.m_btn_handle op,
            Ret.status (d.exec a.m_btn_handle op w.drv).1)] }
      refine ⟨(Op.call a.m_btn_handle op,
        Ret.status (d.exec a.m_btn_handle op w.drv).1) :: l, ?_, ?_⟩
      · rw [hl]; simp
      · simp [hm, Who.pick]
    · simp only [runTwo, Button.apply_eq]
      obtain ⟨l, hl, hm⟩ := ih
        { drv := (d.exec b.m_btn_handle op w.drv).2,
          log := w.log ++ [(Op.call b.m_btn_handle op,
            Ret.status (d.exec b.m_btn_handle op w.drv).1)] }
      refine ⟨(Op.call b.m_btn_handle op,
        Ret.status (d.exec b.m_btn_handle op w.drv).1) :: l, ?_, ?_⟩
      · rw [hl]; simp
      · simp [hm, Who.pick]

/-- A log segment made of forwarding calls only has no lifetime call. -/
theorem lifetimeCalls_of_forwarded {α : Type} (l : List (Call × Ret)) (xs : List α)
    (f : α → Call) (hf : ∀ x, (f x).isLifetime = false)
    (h : l.map Prod.fst = xs.map f) : lifetimeCalls l = [] := by
  unfold lifetimeCalls
  rw [List.filter_eq_nil_iff]
  intro c hc
  have hmem : c.1 ∈ l.map Prod.fst := List.mem_map_of_mem Prod.fst hc
  rw [h, List.mem_map] at hmem
  obtain ⟨x, _, hx⟩ := hmem
  simp [← hx, hf x]

/-- The lifetime calls of a concatenation. -/
theorem lifetimeCalls_append (l1 l2 : List (Call × Ret)) :
    lifetimeCalls (l1 ++ l2) = lifetimeCalls l1 ++ lifetimeCalls l2 := by
  simp [lifetimeCalls]

/-- Looking up a key among the registry entries that do not have that key
finds nothing. -/
theorem lookup_filter_ne (k : button_handle_t × button_cb_type_t)
    (l : List ((button_handle_t × button_cb_type_t) × (button_cb × ctx_ptr))) :
    (l.filter (fun e => e.1 ≠ k)).lookup k = none := by
  induction l with
  | nil => rfl
  | cons e l ih =>
    by_cases h : e.1 = k
    · simp only [List.filter_cons, ne_eq, h, not_true_eq_false, decide_False]
      exact ih
    · have hk : (k == e.1) = false := by
        simpa using fun h2 : k = e.1 => h h2.symm
      simp only [List.filter_cons, ne_eq, h, not_false_eq_true, decide_True, if_true]
      rw [List.lookup_cons, hk]
      exact ih

/-- Positive control for the test double: a callback registered on a non-null
handle and not removed is invoked when its event is simulated. -/
theorem mock_invokes_registered_callback (self : Button) (type : button_cb_type_t)
    (cb : button_cb) (arg : ctx_ptr) (w : World MockState)
    (h : self.m_btn_handle ≠ NULL) :
    (MockState.simulateEvent self.m_btn_handle type
        (Button.setEventCallback mockDriver self type cb arg w).2.2.drv).invoked
      = w.drv.invoked ++ [(cb, arg)] := by
  simp [Button.setEventCallback, iot_button_set_evt_cb, mockDriver, MockState.simulateEvent,
    h, List.lookup_cons]

/-! ### The claims -/

/-- C1: `setSerialCallback(cb, arg, interval_tick, start_after_sec)` on a Button
with stored handle `h` makes exactly one driver call, namely
`setSerialCallback(h, start_after_sec, interval_tick, cb, arg)`: the wrapper's
`start_after_sec` lands in the driver's `startAfterSeconds` position and its
`interval_tick` in the driver's `intervalTicks` position, all four values
unaltered (zero included), for every driver and every state of it. -/
theorem setSerialCallback_forwards {σ : Type} (d : Driver σ) (self : Button)
    (cb : button_cb) (arg : ctx_ptr) (interval_tick : TickType_t)
    (start_after_sec : uint32_t) (w : World σ) :
    (Button.setSerialCallback d self cb arg interval_tick start_after_sec w).2.2.log
      = w.log ++
          [(Call.setSerialCallback self.m_btn_handle start_after_sec interval_tick cb arg,
            Ret.status
              (d.setSerialCallback self.m_btn_handle start_after_sec interval_tick cb arg
                w.drv).1)]
    ∧ (newCalls w
          (Button.setSerialCallback d self cb arg interval_tick start_after_sec w).2.2).map
        Prod.fst
      = [Call.setSerialCallback self.m_btn_handle start_after_sec interval_tick cb arg]
    ∧ (Button.setSerialCallback d self cb arg interval_tick start_after_sec w).2.2.drv
      = (d.setSerialCallback self.m_btn_handle start_after_sec interval_tick cb arg w.drv).2 := by
  simp [Button.setSerialCallback, iot_button_set_serial_cb, newCalls]

/-- C2: for every pin and active level (and every driver), constructing a
Button and destructing it at once logs exactly one `create(pin, activeLevel)`
followed by exactly one `delete(h)`, `h` being the handle that `create`
returned; one create and one delete are counted, and the set of handles that
are created and not deleted is what it was before. -/
theorem construct_destruct_balanced {σ : Type} (d : Driver σ) (pin : gpio_num_t)
    (activeLevel : button_active_t) (w : World σ) :
    (Button.dtor d (Button.ctor d pin activeLevel w).1 (Button.ctor d pin activeLevel w).2).2.log
      = w.log ++
          [(Call.create pin activeLevel, Ret.handle (d.create pin activeLevel w.drv).1),
           (Call.delete (d.create pin activeLevel w.drv).1, Ret.void)]
    ∧ createCount (newCalls w
        (Button.dtor d (Button.ctor d pin activeLevel w).1
          (Button.ctor d pin activeLevel w).2).2) = 1
    ∧ deleteCount (newCalls w
        (Button.dtor d (Button.ctor d pin activeLevel w).1
          (Button.ctor d pin activeLevel w).2).2) = 1
    ∧ ∀ live, liveHandles live (newCalls w
        (Button.dtor d (Button.ctor d pin activeLevel w).1
          (Button.ctor d pin activeLevel w).2).2) = live := by
  simp [Button.ctor, Button.dtor, iot_button_create, iot_button_delete, newCalls,
    createCount, deleteCount, liveHandles, liveStep, Call.isCreate, Call.isDelete]

/-- C3: each of the five forwarding methods returns exactly the status that its
driver call returned, whatever the driver does, and that driver call is the
only one the method makes (no retry): the log grows by one entry, whose
recorded answer is the status returned to the caller. -/
theorem status_propagated_verbatim {σ : Type} (d : Driver σ) (self : Button) (w : World σ)
    (type : button_cb_type_t) (cb : button_cb) (arg : ctx_ptr) (interval_tick : TickType_t)
    (start_after_sec : uint32_t) (press_sec : uint32_t) :
    ((Button.setEventCallback d self type cb arg w).1
        = (d.setEventCallback self.m_btn_handle type cb arg w.drv).1
      ∧ (newCalls w (Button.setEventCallback d self type cb arg w).2.2).map Prod.snd
        = [Ret.status (Button.setEventCallback d self type cb arg w).1])
    ∧ ((Button.setSerialCallback d self cb arg interval_tick start_after_sec w).1
        = (d.setSerialCallback self.m_btn_handle start_after_sec interval_tick cb arg w.drv).1
      ∧ (newCalls w
            (Button.setSerialCallback d self cb arg interval_tick start_after_sec w).2.2).map
          Prod.snd
        = [Ret.status (Button.setSerialCallback d self cb arg interval_tick start_after_sec w).1])
    ∧ ((Button.addOnPressCallback d self press_sec cb arg w).1
        = (d.addOnPressCallback self.m_btn_handle press_sec cb arg w.drv).1
      ∧ (newCalls w (Button.addOnPressCallback d self press_sec cb arg w).2.2).map Prod.snd
        = [Ret.status (Button.addOnPressCallback d self press_sec cb arg w).1])
    ∧ ((Button.addOnReleaseCallback d self press_sec cb arg w).1
        = (d.addOnReleaseCallback self.m_btn_handle press_sec cb arg w.drv).1
      ∧ (newCalls w (Button.addOnReleaseCallback d self press_sec cb arg w).2.2).map Prod.snd
        = [Ret.status (Button.addOnReleaseCallback d self press_sec cb arg w).1])
    ∧ ((Button.removeCallback d self type w).1
        = (d.removeCallback self.m_btn_handle type w.drv).1
      ∧ (newCalls w (Button.removeCallback d self type w).2.2).map Prod.snd
        = [Ret.status (Button.removeCallback d self type w).1]) := by
  simp [Button.setEventCallback, Button.setSerialCallback, Button.addOnPressCallback,
    Button.addOnReleaseCallback, Button.removeCallback, iot_button_set_evt_cb,
    iot_button_set_serial_cb, iot_button_add_on_press_cb, iot_button_add_on_release_cb,
    iot_button_rm_cb, newCalls]

/-- C4: on a Button with stored handle `h`, each of `setEventCallback`,
`addOnPressCallback`, `addOnReleaseCallback` and `removeCallback` issues exactly
one driver call, the same-named driver operation, with `h` as the handle and
the given arguments unchanged in the driver's order; `addOnPressCallback` makes
no on-release registration and `addOnReleaseCallback` no on-press one. -/
theorem same_named_driver_call {σ : Type} (d : Driver σ) (self : Button) (w : World σ)
    (type : button_cb_type_t) (cb : button_cb) (arg : ctx_ptr) (press_sec : uint32_t) :
    (newCalls w (Button.setEventCallback d self type cb arg w).2.2).map Prod.fst
        = [Call.setEventCallback self.m_btn_handle type cb arg]
    ∧ (newCalls w (Button.addOnPressCallback d self press_sec cb arg w).2.2).map Prod.fst
        = [Call.addOnPressCallback self.m_btn_handle press_sec cb arg]
    ∧ (newCalls w (Button.addOnReleaseCallback d self press_sec cb arg w).2.2).map Prod.fst
        = [Call.addOnReleaseCallback self.m_btn_handle press_sec cb arg]
    ∧ (newCalls w (Button.removeCallback d self type w).2.2).map Prod.fst
        = [Call.removeCallback self.m_btn_handle type]
    ∧ (∀ c ∈ newCalls w (Button.addOnPressCallback d self press_sec cb arg w).2.2,
        c.1.isAddOnRelease = false)
    ∧ (∀ c ∈ newCalls w (Button.addOnReleaseCallback d self press_sec cb arg w).2.2,
        c.1.isAddOnPress = false)
    ∧ (Button.setEventCallback d self type cb arg w).2.2.log.length = w.log.length + 1
    ∧ (Button.addOnPressCallback d self press_sec cb arg w).2.2.log.length = w.log.length + 1
    ∧ (Button.addOnReleaseCallback d self press_sec cb arg w).2.2.log.length
        = w.log.length + 1
    ∧ (Button.removeCallback d self type w).2.2.log.length = w.log.length + 1 := by
  simp [Button.setEventCallback, Button.addOnPressCallback,
    Button.addOnReleaseCallback, Button.removeCallback, iot_button_set_evt_cb,
    iot_button_add_on_press_cb, iot_button_add_on_release_cb,
    iot_button_rm_cb, newCalls, Call.isAddOnRelease, Call.isAddOnPress]

/-- C5: over the test double, which records the callback registered per
(handle, event type) and can simulate events: after `setEventCallback(E, cb,
context)` followed by `removeCallback(E)` on a Button, simulating event `E` on
that Button's handle invokes no callback, so `cb` is not invoked; the list of
invoked callbacks is what it was before the registration. -/
theorem removed_callback_not_invoked (self : Button) (E : button_cb_type_t)
    (cb : button_cb) (context : ctx_ptr) (w : World MockState) :
    (MockState.simulateEvent
        (Button.removeCallback mockDriver
          (Button.setEventCallback mockDriver self E cb context w).2.1 E
          (Button.setEventCallback mockDriver self E cb context w).2.2).2.1.m_btn_handle
        E
        (Button.removeCallback mockDriver
          (Button.setEventCallback mockDriver self E cb context w).2.1 E
          (Button.setEventCallback mockDriver self E cb context w).2.2).2.2.drv).invoked
      = w.drv.invoked := by
  by_cases h : self.m_btn_handle = NULL
  · simp only [Button.removeCallback, Button.setEventCallback, iot_button_rm_cb,
      iot_button_set_evt_cb, mockDriver, MockState.simulateEvent, h, if_true]
    rw [lookup_filter_ne]
  · simp only [Button.removeCallback, Button.setEventCallback, iot_button_rm_cb,
      iot_button_set_evt_cb, mockDriver, MockState.simulateEvent, h, if_false]
    rw [lookup_filter_ne]

/-- C6: over the test double, whose `create` returns a fresh handle on every
call: constructing two Buttons (on any two pins, different or not) makes two
`create` calls and stores two distinct handles; the Buttons keep them, and
every forwarding method invoked on one Button reaches the driver with that
Button's own handle and never with the other's. -/
theorem two_buttons_own_distinct_handles (p1 p2 : gpio_num_t)
    (l1 l2 : button_active_t) (w : World MockState) (ops : List (Who × Op)) :
    (newCalls w (constructTwo mockDriver p1 l1 p2 l2 w).2.2)
      = [(Call.create p1 l1,
            Ret.handle (constructTwo mockDriver p1 l1 p2 l2 w).1.m_btn_handle),
         (Call.create p2 l2,
            Ret.handle (constructTwo mockDriver p1 l1 p2 l2 w).2.1.m_btn_handle)]
    ∧ (constructTwo mockDriver p1 l1 p2 l2 w).1.m_btn_handle
        ≠ (constructTwo mockDriver p1 l1 p2 l2 w).2.1.m_btn_handle
    ∧ (runTwo mockDriver ops (constructTwo mockDriver p1 l1 p2 l2 w).1
          (constructTwo mockDriver p1 l1 p2 l2 w).2.1
          (constructTwo mockDriver p1 l1 p2 l2 w).2.2).1
        = (constructTwo mockDriver p1 l1 p2 l2 w).1
    ∧ (runTwo mockDriver ops (constructTwo mockDriver p1 l1 p2 l2 w).1
          (constructTwo mockDriver p1 l1 p2 l2 w).2.1
          (constructTwo mockDriver p1 l1 p2 l2 w).2.2).2.1
        = (constructTwo mockDriver p1 l1 p2 l2 w).2.1
    ∧ (newCalls (constructTwo mockDriver p1 l1 p2 l2 w).2.2
          (runTwo mockDriver ops (constructTwo mockDriver p1 l1 p2 l2 w).1
            (constructTwo mockDriver p1 l1 p2 l2 w).2.1
            (constructTwo mockDriver p1 l1 p2 l2 w).2.2).2.2).map Prod.fst
        = ops.map (fun p =>
            Op.call (p.1.pick (constructTwo mockDriver p1 l1 p2 l2 w).1.m_btn_handle
              (constructTwo mockDriver p1 l1 p2 l2 w).2.1.m_btn_handle) p.2)
    ∧ (∀ (op : Op) (w1 : World MockState),
        ∀ c ∈ newCalls w1
            (Button.apply mockDriver (constructTwo mockDriver p1 l1 p2 l2 w).1 op w1).2.2,
          c.1.handleOf = some (constructTwo mockDriver p1 l1 p2 l2 w).1.m_btn_handle
          ∧ c.1.handleOf ≠ some (constructTwo mockDriver p1 l1 p2 l2 w).2.1.m_btn_handle)
    ∧ (∀ (op : Op) (w1 : World MockState),
        ∀ c ∈ newCalls w1
            (Button.apply mockDriver (constructTwo mockDriver p1 l1 p2 l2 w).2.1 op w1).2.2,
          c.1.handleOf = some (constructTwo mockDriver p1 l1 p2 l2 w).2.1.m_btn_handle
          ∧ c.1.handleOf ≠ some (constructTwo mockDriver p1 l1 p2 l2 w).1.m_btn_handle) := by
  have hne : (constructTwo mockDriver p1 l1 p2 l2 w).1.m_btn_handle
      ≠ (constructTwo mockDriver p1 l1 p2 l2 w).2.1.m_btn_handle := by
    simp [constructTwo, Button.ctor, iot_button_create, mockDriver]
  refine ⟨?_, hne, (runTwo_self _ _ _ _ _).1, (runTwo_self _ _ _ _ _).2, ?_, ?_, ?_⟩
  · simp [constructTwo, Button.ctor, iot_button_create, newCalls]
  · obtain ⟨l, hl, hm⟩ := runTwo_log mockDriver ops (constructTwo mockDriver p1 l1 p2 l2 w).1
      (constructTwo mockDriver p1 l1 p2 l2 w).2.1 (constructTwo mockDriver p1 l1 p2 l2 w).2.2
    rw [newCalls_append _ _ l hl, hm]
  · intro op w1 c hc
    rw [Button.apply_eq] at hc
    simp only [newCalls, List.drop_left, List.mem_singleton] at hc
    subst hc
    simp only [Op.call_handleOf, ne_eq, Option.some.injEq, true_and]
    exact hne
  · intro op w1 c hc
    rw [Button.apply_eq] at hc
    simp only [newCalls, List.drop_left, List.mem_singleton] at hc
    subst hc
    simp only [Op.call_handleOf, ne_eq, Option.some.injEq, true_and]
    exact fun h => hne h.symm

/-- C7: constructing A then B and destructing B then A (with any use of the two
Buttons in between) yields a log whose lifetime calls are, in order, `create`
for A returning `hA`, `create` for B returning `hB`, `delete(hB)`,
`delete(hA)`: the handles are released in LIFO order, each destructor deleting
the handle of its own instance. -/
theorem handles_released_lifo {σ : Type} (d : Driver σ) (pinA : gpio_num_t)
    (levelA : button_active_t) (pinB : gpio_num_t) (levelB : button_active_t)
    (opsA : List Op) (opsAB : List (Who × Op)) (opsA2 : List Op) (w : World σ) :
    lifetimeCalls
        (newCalls w (nestedLifetimes d pinA levelA pinB levelB opsA opsAB opsA2 w).2.2)
      = [(Call.create pinA levelA,
            Ret.handle (nestedLifetimes d pinA levelA pinB levelB opsA opsAB opsA2 w).1),
         (Call.create pinB levelB,
            Ret.handle (nestedLifetimes d pinA levelA pinB levelB opsA opsAB opsA2 w).2.1),
         (Call.delete (nestedLifetimes d pinA levelA pinB levelB opsA opsAB opsA2 w).2.1,
            Ret.void),
         (Call.delete (nestedLifetimes d pinA levelA pinB levelB opsA opsAB opsA2 w).1,
            Ret.void)]
    ∧ (nestedLifetimes d pinA levelA pinB levelB opsA opsAB opsA2 w).1
        = (d.create pinA levelA w.drv).1 := by
  refine ⟨?_, rfl⟩
  simp only [nestedLifetimes]
  generalize hcA : Button.ctor d pinA levelA w = cA
  have hcAlog : cA.2.log
      = w.log ++ [(Call.create pinA levelA, Ret.handle cA.1.m_btn_handle)] := by
    rw [← hcA]; rfl
  obtain ⟨l1, hl1, hm1⟩ := Button.run_log d opsA cA.1 cA.2
  have hs1 := Button.run_self d opsA cA.1 cA.2
  generalize Button.run d opsA cA.1 cA.2 = rA at hl1 hs1
  generalize hcB : Button.ctor d pinB levelB rA.2 = cB
  have hcBlog : cB.2.log
      = rA.2.log ++ [(Call.create pinB levelB, Ret.handle cB.1.m_btn_handle)] := by
    rw [← hcB]; rfl
  obtain ⟨l2, hl2, hm2⟩ := runTwo_log d opsAB rA.1 cB.1 cB.2
  obtain ⟨hs2a, hs2b⟩ := runTwo_self d opsAB rA.1 cB.1 cB.2
  generalize runTwo d opsAB rA.1 cB.1 cB.2 = rAB at hl2 hs2a hs2b
  obtain ⟨l3, hl3, hm3⟩ := Button.run_log d opsA2 rAB.1 (Button.dtor d rAB.2.1 rAB.2.2).2
  have hs3 := Button.run_self d opsA2 rAB.1 (Button.dtor d rAB.2.1 rAB.2.2).2
  generalize Button.run d opsA2 rAB.1 (Button.dtor d rAB.2.1 rAB.2.2).2 = rA2 at hl3 hs3
  have hfinal : (Button.dtor d rA2.1 rA2.2).2.log
      = w.log ++ ([(Call.create pinA levelA, Ret.handle cA.1.m_btn_handle)] ++ l1
          ++ [(Call.create pinB levelB, Ret.handle cB.1.m_btn_handle)] ++ l2
          ++ [(Call.delete cB.1.m_btn_handle, Ret.void)] ++ l3
          ++ [(Call.delete cA.1.m_btn_handle, Ret.void)]) := by
    simp only [Button.dtor, iot_button_delete] at hl3 ⊢
    rw [hl3, hl2, hcBlog, hl1, hcAlog, hs3, hs2a, hs2b, hs1]
    simp only [List.append_assoc]
  rw [newCalls_append _ _ _ hfinal]
  have e1 := lifetimeCalls_of_forwarded l1 opsA _ (Op.call_isLifetime _) hm1
  have e2 := lifetimeCalls_of_forwarded l2 opsAB _ (fun p => Op.call_isLifetime _ p.2) hm2
  have e3 := lifetimeCalls_of_forwarded l3 opsA2 _ (Op.call_isLifetime _) hm3
  simp only [lifetimeCalls_append, e1, e2, e3]
  simp [lifetimeCalls, Call.isLifetime]

/-- C8: handle invariant.  When construction obtained a non-null handle `h` from
the driver's `create`, then after every finite sequence of the five forwarding
methods, whatever the driver answers, the stored handle is still `h` and
non-null, and no `delete` has been issued; the destructor then calls the
driver's `delete` on `h`, exactly once in the whole lifetime, and leaves the
stored handle null. -/
theorem handle_invariant {σ : Type} (d : Driver σ) (pin : gpio_num_t)
    (activeLevel : button_active_t) (ops : List Op) (w w0 w1 w2 : World σ)
    (b0 b1 b2 : Button)
    (hctor : Button.ctor d pin activeLevel w = (b0, w0))
    (hnonnull : b0.m_btn_handle ≠ NULL)
    (hrun : Button.run d ops b0 w0 = (b1, w1))
    (hdtor : Button.dtor d b1 w1 = (b2, w2)) :
    b0.m_btn_handle = (d.create pin activeLevel w.drv).1
    ∧ b1.m_btn_handle = b0.m_btn_handle
    ∧ b1.m_btn_handle ≠ NULL
    ∧ (newCalls w0 w1).map Prod.fst = ops.map (Op.call b0.m_btn_handle)
    ∧ deleteCount (newCalls w w1) = 0
    ∧ b2.m_btn_handle = NULL
    ∧ newCalls w1 w2 = [(Call.delete b0.m_btn_handle, Ret.void)]
    ∧ deleteCount (newCalls w w2) = 1 := by
  have hb0 : b0.m_btn_handle = (d.create pin activeLevel w.drv).1 := by
    rw [← (Prod.mk.inj hctor).1]; rfl
  have hw0 : w0.log = w.log ++ [(Call.create pin activeLevel, Ret.handle b0.m_btn_handle)] := by
    rw [← (Prod.mk.inj hctor).1, ← (Prod.mk.inj hctor).2]; rfl
  have hb1 : b1 = b0 := by
    have := Button.run_self d ops b0 w0
    rw [hrun] at this; exact this
  obtain ⟨l, hl, hm⟩ := Button.run_log d ops b0 w0
  rw [hrun] at hl
  have hb2 : b2.m_btn_handle = NULL := by
    rw [← (Prod.mk.inj hdtor).1]
  have hw2 : w2.log = w1.log ++ [(Call.delete b0.m_btn_handle, Ret.void)] := by
    rw [← (Prod.mk.inj hdtor).2, hb1]; rfl
  have hdel : deleteCount l = 0 := by
    unfold deleteCount
    rw [List.countP_eq_zero]
    intro c hc
    have hmem : c.1 ∈ l.map Prod.fst := List.mem_map_of_mem Prod.fst hc
    rw [hm, List.mem_map] at hmem
    obtain ⟨op, _, hop⟩ := hmem
    rw [← hop]
    cases op <;> simp [Op.call, Call.isDelete]
  have hw1 : w1.log
      = w.log ++ ([(Call.create pin activeLevel, Ret.handle b0.m_btn_handle)] ++ l) := by
    rw [hl, hw0, List.append_assoc]
  have hw2full : w2.log
      = w.log ++ ([(Call.create pin activeLevel, Ret.handle b0.m_btn_handle)] ++ l
          ++ [(Call.delete b0.m_btn_handle, Ret.void)]) := by
    rw [hw2, hw1]; simp only [List.append_assoc]
  refine ⟨hb0, by rw [hb1], by rw [hb1]; exact hnonnull, ?_, ?_, hb2, ?_, ?_⟩
  · rw [newCalls_append _ _ l hl, hm]
  · rw [newCalls_append _ _ _ hw1]
    unfold deleteCount at hdel ⊢
    rw [List.countP_append, hdel]
    simp [Call.isDelete]
  · exact newCalls_append _ _ _ hw2
  · rw [newCalls_append _ _ _ hw2full]
    unfold deleteCount at hdel ⊢
    rw [List.countP_append, List.countP_append, hdel]
    simp [Call.isDelete]

/-- Witness of C8 on the test double: pin 4, active-high, three forwarding
methods, then destruction. -/
theorem handle_invariant_witness :
    (Button.ctor mockDriver 4 button_active_t.BUTTON_ACTIVE_HIGH mockInit).1.m_btn_handle ≠ NULL
    ∧ (Button.run mockDriver
          [Op.setEventCallback 0 7 9, Op.setSerialCallback 7 9 0 0, Op.removeCallback 0]
          (Button.ctor mockDriver 4 button_active_t.BUTTON_ACTIVE_HIGH mockInit).1
          (Button.ctor mockDriver 4 button_active_t.BUTTON_ACTIVE_HIGH mockInit).2).1.m_btn_handle
        = 1
    ∧ deleteCount (newCalls mockInit
        (Button.dtor mockDriver
          (Button.run mockDriver
            [Op.setEventCallback 0 7 9, Op.setSerialCallback 7 9 0 0, Op.removeCallback 0]
            (Button.ctor mockDriver 4 button_active_t.BUTTON_ACTIVE_HIGH mockInit).1
            (Button.ctor mockDriver 4 button_active_t.BUTTON_ACTIVE_HIGH mockInit).2).1
          (Button.run mockDriver
            [Op.setEventCallback 0 7 9, Op.setSerialCallback 7 9 0 0, Op.removeCallback 0]
            (Button.ctor mockDriver 4 button_active_t.BUTTON_ACTIVE_HIGH mockInit).1
            (Button.ctor mockDriver 4 button_active_t.BUTTON_ACTIVE_HIGH mockInit).2).2).2) = 1 :=
  have h := handle_invariant mockDriver 4 button_active_t.BUTTON_ACTIVE_HIGH
    [Op.setEventCallback 0 7 9, Op.setSerialCallback 7 9 0 0, Op.removeCallback 0]
    mockInit
    (Button.ctor mockDriver 4 button_active_t.BUTTON_ACTIVE_HIGH mockInit).2
    (Button.run mockDriver
      [Op.setEventCallback 0 7 9, Op.setSerialCallback 7 9 0 0, Op.removeCallback 0]
      (Button.ctor mockDriver 4 button_active_t.BUTTON_ACTIVE_HIGH mockInit).1
      (Button.ctor mockDriver 4 button_active_t.BUTTON_ACTIVE_HIGH mockInit).2).2
    (Button.dtor mockDriver
      (Button.run mockDriver
        [Op.setEventCallback 0 7 9, Op.setSerialCallback 7 9 0 0, Op.removeCallback 0]
        (Button.ctor mockDriver 4 button_active_t.BUTTON_ACTIVE_HIGH mockInit).1
        (Button.ctor mockDriver 4 button_active_t.BUTTON_ACTIVE_HIGH mockInit).2).1
      (Button.run mockDriver
        [Op.setEventCallback 0 7 9, Op.setSerialCallback 7 9 0 0, Op.removeCallback 0]
        (Button.ctor mockDriver 4 button_active_t.BUTTON_ACTIVE_HIGH mockInit).1
        (Button.ctor mockDriver 4 button_active_t.BUTTON_ACTIVE_HIGH mockInit).2).2).2
    (Button.ctor mockDriver 4 button_active_t.BUTTON_ACTIVE_HIGH mockInit).1
    (Button.run mockDriver
      [Op.setEventCallback 0 7 9, Op.setSerialCallback 7 9 0 0, Op.removeCallback 0]
      (Button.ctor mockDriver 4 button_active_t.BUTTON_ACTIVE_HIGH mockInit).1
      (Button.ctor mockDriver 4 button_active_t.BUTTON_ACTIVE_HIGH mockInit).2).1
    (Button.dtor mockDriver
      (Button.run mockDriver
        [Op.setEventCallback 0 7 9, Op.setSerialCallback 7 9 0 0, Op.removeCallback 0]
        (Button.ctor mockDriver 4 button_active_t.BUTTON_ACTIVE_HIGH mockInit).1
        (Button.ctor mockDriver 4 button_active_t.BUTTON_ACTIVE_HIGH mockInit).2).1
      (Button.run mockDriver
        [Op.setEventCallback 0 7 9, Op.setSerialCallback 7 9 0 0, Op.removeCallback 0]
        (Button.ctor mockDriver 4 button_active_t.BUTTON_ACTIVE_HIGH mockInit).1
        (Button.ctor mockDriver 4 button_active_t.BUTTON_ACTIVE_HIGH mockInit).2).2).1
    rfl (by decide) rfl rfl
  ⟨by decide, h.2.1.trans (by decide), h.2.2.2.2.2.2.2⟩

/-- C9: when the driver's `create` fails and returns a null handle, the
constructor signals no error (its only effect is the logged `create`) and the
Button stores the null handle; over a driver that rejects the null handle,
every subsequent forwarding method, after any earlier ones, then fails: it
passes the null handle to the driver in one call and returns the driver's
error status, never `ESP_OK`. -/
theorem null_handle_operations_fail {σ : Type} (d : Driver σ) (pin : gpio_num_t)
    (activeLevel : button_active_t) (ops : List Op) (op : Op) (w w0 w1 : World σ)
    (b0 b1 : Button)
    (hnull : (d.create pin activeLevel w.drv).1 = NULL)
    (hreject : d.rejectsNull)
    (hctor : Button.ctor d pin activeLevel w = (b0, w0))
    (hrun : Button.run d ops b0 w0 = (b1, w1)) :
    b0.m_btn_handle = NULL
    ∧ newCalls w w0 = [(Call.create pin activeLevel, Ret.handle NULL)]
    ∧ b1.m_btn_handle = NULL
    ∧ (Button.apply d b1 op w1).1 ≠ ESP_OK
    ∧ (Button.apply d b1 op w1).1 = (d.exec NULL op w1.drv).1
    ∧ newCalls w1 (Button.apply d b1 op w1).2.2
        = [(Op.call NULL op, Ret.status (d.exec NULL op w1.drv).1)] := by
  have hb0 : b0.m_btn_handle = NULL := by
    rw [← hnull, ← (Prod.mk.inj hctor).1]; rfl
  have hw0 : w0.log = w.log ++ [(Call.create pin activeLevel, Ret.handle NULL)] := by
    rw [← hnull, ← (Prod.mk.inj hctor).2]; rfl
  have hb1 : b1.m_btn_handle = NULL := by
    have := Button.run_self d ops b0 w0
    rw [hrun] at this
    rw [show b1 = b0 from this, hb0]
  refine ⟨hb0, newCalls_append _ _ _ hw0, hb1, ?_, ?_, ?_⟩
  · rw [Button.apply_eq, hb1]
    exact hreject op w1.drv
  · rw [Button.apply_eq, hb1]
  · rw [Button.apply_eq, hb1]
    exact newCalls_append _ _ _ rfl

/-- Witness of C9: on the driver whose allocation fails, after construction and
an earlier `setEventCallback`, `removeCallback` on the null-handle Button
returns `ESP_FAIL`, not `ESP_OK`. -/
theorem null_handle_operations_fail_witness :
    (exhaustedDriver.create 4 button_active_t.BUTTON_ACTIVE_LOW mockInit.drv).1 = NULL
    ∧ exhaustedDriver.rejectsNull
    ∧ (Button.apply exhaustedDriver
          (Button.run exhaustedDriver [Op.setEventCallback 0 7 9]
            (Button.ctor exhaustedDriver 4 button_active_t.BUTTON_ACTIVE_LOW mockInit).1
            (Button.ctor exhaustedDriver 4 button_active_t.BUTTON_ACTIVE_LOW mockInit).2).1
          (Op.removeCallback 0)
          (Button.run exhaustedDriver [Op.setEventCallback 0 7 9]
            (Button.ctor exhaustedDriver 4 button_active_t.BUTTON_ACTIVE_LOW mockInit).1
            (Button.ctor exhaustedDriver 4 button_active_t.BUTTON_ACTIVE_LOW mockInit).2).2).1
        ≠ ESP_OK
    ∧ (Button.apply exhaustedDriver
          (Button.run exhaustedDriver [Op.setEventCallback 0 7 9]
            (Button.ctor exhaustedDriver 4 button_active_t.BUTTON_ACTIVE_LOW mockInit).1
            (Button.ctor exhaustedDriver 4 button_active_t.BUTTON_ACTIVE_LOW mockInit).2).1
          (Op.removeCallback 0)
          (Button.run exhaustedDriver [Op.setEventCallback 0 7 9]
            (Button.ctor exhaustedDriver 4 button_active_t.BUTTON_ACTIVE_LOW mockInit).1
            (Button.ctor exhaustedDriver 4 button_active_t.BUTTON_ACTIVE_LOW mockInit).2).2).1
        = ESP_FAIL :=
  have hrej : exhaustedDriver.rejectsNull := fun o s => by
    cases o <;> simp [Driver.exec, exhaustedDriver, ESP_FAIL, ESP_OK]
  have h := null_handle_operations_fail exhaustedDriver 4 button_active_t.BUTTON_ACTIVE_LOW
    [Op.setEventCallback 0 7 9] (Op.removeCallback 0) mockInit
    (Button.ctor exhaustedDriver 4 button_active_t.BUTTON_ACTIVE_LOW mockInit).2
    (Button.run exhaustedDriver [Op.setEventCallback 0 7 9]
      (Button.ctor exhaustedDriver 4 button_active_t.BUTTON_ACTIVE_LOW mockInit).1
      (Button.ctor exhaustedDriver 4 button_active_t.BUTTON_ACTIVE_LOW mockInit).2).2
    (Button.ctor exhaustedDriver 4 button_active_t.BUTTON_ACTIVE_LOW mockInit).1
    (Button.run exhaustedDriver [Op.setEventCallback 0 7 9]
      (Button.ctor exhaustedDriver 4 button_active_t.BUTTON_ACTIVE_LOW mockInit).1
      (Button.ctor exhaustedDriver 4 button_active_t.BUTTON_ACTIVE_LOW mockInit).2).1
    rfl hrej rfl rfl
  ⟨rfl, hrej, h.2.2.2.1, h.2.2.2.2.1.trans (by decide)⟩
